import Mathlib

/-!
# Bi-Kanpe: verification of the message fabric's client-side semantics

Shallow embedding of the Bi-Kanpe repository's caster-side code:

* the display filter and event listeners of `useClientState`
  (app/src/hooks, string-ID version of the hook),
* the web caster's WebSocket handlers
  (crates/kanpe-server/web-caster/app.js), modelled as a step machine
  over events (socket open, received envelope, feedback click),
* the Stream Deck bridge's `BiKanpeClient.send`,
* the server-side `send_kanpe_message` command and broadcast path,
  whose Rust implementation is not part of the sources at hand and is
  therefore modelled from the specification where marked.

All definitions are executable; theorems characterise the behaviour the
specification describes.
-/

namespace BiKanpe

/-- Message priority, matching the `Priority` union of the TypeScript
types (`"normal" | "high" | "urgent"`). -/
inductive Priority
  | normal
  | high
  | urgent
deriving DecidableEq, Repr

/-- Feedback category, matching `FeedbackType`
(`"ack" | "question" | "issue" | "info"`). -/
inductive FeedbackType
  | ack
  | question
  | issue
  | info
deriving DecidableEq, Repr

/-- A virtual monitor, as mirrored on clients: opaque string `id`,
human-readable `name`, optional presentation hints. -/
structure VirtualMonitor where
  id : String
  name : String
  description : String
  color : String
deriving DecidableEq, Repr

/-- Payload of a `kanpe_message` envelope. -/
structure KanpePayload where
  content : String
  target_monitor_ids : List String
  priority : Priority
deriving DecidableEq, Repr

/-- Payload of a `feedback_message` envelope. -/
structure FeedbackPayload where
  content : String
  client_name : String
  reply_to_message_id : String
  feedback_type : FeedbackType
deriving DecidableEq, Repr

/-- The closed set of wire payloads, one constructor per `type` tag. -/
inductive Payload
  | clientHello (client_name : String) (display_monitor_ids : List String)
  | serverWelcome (server_name : String) (assigned_client_id : String)
  | monitorListSync (monitors : List VirtualMonitor)
  | monitorAdded (monitor : VirtualMonitor)
  | monitorRemoved (monitor_id : String)
  | monitorUpdated (monitor : VirtualMonitor)
  | kanpeMessage (p : KanpePayload)
  | flashCommand (target_monitor_ids : List String)
  | clearCommand (target_monitor_ids : List String)
  | feedbackMessage (p : FeedbackPayload)
  | ping
  | pong
deriving DecidableEq, Repr

/-- A wire envelope: `id`, `timestamp` (ms since epoch), tagged payload. -/
structure Envelope where
  id : String
  timestamp : Nat
  payload : Payload
deriving DecidableEq, Repr

/-- The display filter shared by every caster-side handler.  Both the
hook listener and the web caster evaluate the same expression
`targetIds.includes("ALL") || displayIds.some(id => targetIds.includes(id))`. -/
def shouldDisplay (displayMonitorIds targetIds : List String) : Bool :=
  targetIds.contains "ALL" ||
    displayMonitorIds.any (fun id => targetIds.contains id)

/-- The state kept by the `useClientState` hook. -/
structure ClientState where
  isConnected : Bool
  serverName : Option String
  messages : List Envelope
  availableMonitors : List VirtualMonitor
  flashTrigger : Nat
  clearTrigger : Nat
deriving DecidableEq, Repr

/-- The `kanpe_message_received` listener of `useClientState`: append the
message when the display filter passes, bumping the flash trigger for
urgent priority; otherwise leave the state untouched. -/
def handleKanpeMessageEvent (displayMonitorIds : List String)
    (e : Envelope) (s : ClientState) : ClientState :=
  match e.payload with
  | .kanpeMessage p =>
      if shouldDisplay displayMonitorIds p.target_monitor_ids then
        { s with
          messages := s.messages ++ [e]
          flashTrigger :=
            if p.priority = .urgent then s.flashTrigger + 1
            else s.flashTrigger }
      else s
  | _ => s

/-- The `flash_received` listener: bump the flash trigger when the
display filter passes. -/
def handleFlashEvent (displayMonitorIds targetIds : List String)
    (s : ClientState) : ClientState :=
  if shouldDisplay displayMonitorIds targetIds then
    { s with flashTrigger := s.flashTrigger + 1 }
  else s

/-- The `clear_received` listener: when the display filter passes, drop
all stored messages and bump the clear trigger. -/
def handleClearEvent (displayMonitorIds targetIds : List String)
    (s : ClientState) : ClientState :=
  if shouldDisplay displayMonitorIds targetIds then
    { s with messages := [], clearTrigger := s.clearTrigger + 1 }
  else s

/-- The `monitor_list_received` listener: replace the mirror wholesale. -/
def handleMonitorListEvent (monitors : List VirtualMonitor)
    (s : ClientState) : ClientState :=
  { s with availableMonitors := monitors }

/-- The `monitor_added` listener: append the carried monitor. -/
def handleMonitorAddedEvent (m : VirtualMonitor)
    (s : ClientState) : ClientState :=
  { s with availableMonitors := s.availableMonitors ++ [m] }

/-- The `monitor_removed` listener: keep exactly the entries whose id
differs from the carried `monitor_id`. -/
def handleMonitorRemovedEvent (monitor_id : String)
    (s : ClientState) : ClientState :=
  { s with availableMonitors :=
      s.availableMonitors.filter (fun m => m.id ≠ monitor_id) }

/-- The `monitor_updated` listener: map over the mirror, substituting the
carried monitor for entries with the same id. -/
def handleMonitorUpdatedEvent (m : VirtualMonitor)
    (s : ClientState) : ClientState :=
  { s with availableMonitors :=
      s.availableMonitors.map (fun x => if x.id = m.id then m else x) }

/-! ## Web caster (crates/kanpe-server/web-caster/app.js) -/

/-- Hexadecimal digits, as produced by `Number.toString(16)`. -/
def hexChars : List Char := "0123456789abcdef".toList

/-- One hex digit for a nibble value. -/
def hexDigit (n : Nat) : Char := hexChars.getD (n % 16) '0'

/-- The template string the caster's UUID generator walks. -/
def uuidTemplate : List Char := "xxxxxxxx-xxxx-4xxx-yxxx-xxxxxxxxxxxx".toList

/-- Walk the UUID template, consuming one value of the random nibble
supply per `x`/`y` placeholder: `x` becomes the nibble itself, `y`
becomes `(r & 0x3 | 0x8)`, everything else is copied verbatim. -/
def generateUUIDAux (rand : Nat → Nat) : List Char → Nat → List Char
  | [], _ => []
  | c :: cs, k =>
      if c = 'x' then hexDigit (rand k) :: generateUUIDAux rand cs (k + 1)
      else if c = 'y' then
        hexDigit (rand k % 16 % 4 + 8) :: generateUUIDAux rand cs (k + 1)
      else c :: generateUUIDAux rand cs k

/-- The caster's `generateUUID`, parameterised by the random nibble
supply that `Math.random` provides in the source. -/
def generateUUID (rand : Nat → Nat) : String :=
  ⟨generateUUIDAux rand uuidTemplate 0⟩

/-- A feedback template (content plus feedback category), as in the
caster's `DEFAULT_TEMPLATES`. -/
structure FeedbackTemplate where
  content : String
  feedback_type : FeedbackType
deriving DecidableEq, Repr

/-- The protocol-relevant part of the web caster's `state` object.
`wsOpen` models `state.ws !== null && state.ws.readyState === OPEN`. -/
structure CasterState where
  wsOpen : Bool
  connected : Bool
  clientName : String
  selectedMonitorIds : List String
  availableMonitors : List VirtualMonitor
  currentMessage : Option Envelope
deriving DecidableEq, Repr

/-- Events driving the web caster: the socket opening or closing, an
inbound envelope, or the user clicking a feedback template button. -/
inductive CasterEvent
  | socketOpen
  | socketClose
  | recv (e : Envelope)
  | clickFeedback (t : FeedbackTemplate) (isReply : Bool)
deriving DecidableEq, Repr

/-- Observable caster outputs: a frame written to the socket, or the
transient flash animation being raised. -/
inductive CasterOutput
  | sendFrame (e : Envelope)
  | flash
deriving DecidableEq, Repr

/-- The `client_hello` envelope minted by `handleWebSocketOpen`. -/
def helloEnvelope (rand : Nat → Nat) (now : Nat) (s : CasterState) : Envelope :=
  { id := generateUUID rand
    timestamp := now
    payload := .clientHello s.clientName s.selectedMonitorIds }

/-- The caster's `sendPong`: mint a fresh envelope and send it, guarded
by the socket being open. -/
def sendPong (rand : Nat → Nat) (now : Nat) (s : CasterState) :
    List CasterOutput :=
  if s.wsOpen then
    [.sendFrame { id := generateUUID rand, timestamp := now, payload := .pong }]
  else []

/-- The caster's `sendFeedback`: guarded by the socket being open;
`reply_to_message_id` is the current message's id when replying and a
current message exists, otherwise the empty string. -/
def sendFeedback (rand : Nat → Nat) (now : Nat) (s : CasterState)
    (t : FeedbackTemplate) (isReply : Bool) : List CasterOutput :=
  if s.wsOpen then
    [.sendFrame
      { id := generateUUID rand
        timestamp := now
        payload := .feedbackMessage
          { content := t.content
            client_name := s.clientName
            reply_to_message_id :=
              if isReply then
                match s.currentMessage with
                | some m => m.id
                | none => ""
              else ""
            feedback_type := t.feedback_type } }]
  else []

/-- The caster's `handleKanpeMessage`: when the display filter passes,
store the envelope as the current message and flash on urgent priority;
otherwise return unchanged. -/
def handleKanpeMessage (e : Envelope) (p : KanpePayload) (s : CasterState) :
    CasterState × List CasterOutput :=
  if shouldDisplay s.selectedMonitorIds p.target_monitor_ids then
    ({ s with currentMessage := some e },
     if p.priority = .urgent then [.flash] else [])
  else (s, [])

/-- The caster's `handleFlashCommand`: raise the flash animation when
the display filter passes. -/
def handleFlashCommand (targets : List String) (s : CasterState) :
    List CasterOutput :=
  if shouldDisplay s.selectedMonitorIds targets then [.flash] else []

/-- The caster's `handleClearCommand`: reset the current message when
the display filter passes. -/
def handleClearCommand (targets : List String) (s : CasterState) :
    CasterState :=
  if shouldDisplay s.selectedMonitorIds targets then
    { s with currentMessage := none }
  else s

/-- One step of the web caster: `handleWebSocketOpen` sends the hello,
`handleWebSocketMessage` dispatches on the envelope tag (monitor deltas
and unknown tags fall through), a feedback click runs `sendFeedback`,
and a close clears the connection flags. -/
def casterStep (rand : Nat → Nat) (now : Nat) (s : CasterState) :
    CasterEvent → CasterState × List CasterOutput
  | .socketOpen =>
      ({ s with wsOpen := true }, [.sendFrame (helloEnvelope rand now s)])
  | .socketClose => ({ s with wsOpen := false, connected := false }, [])
  | .recv e =>
      match e.payload with
      | .serverWelcome _ _ => ({ s with connected := true }, [])
      | .monitorListSync ms => ({ s with availableMonitors := ms }, [])
      | .kanpeMessage p => handleKanpeMessage e p s
      | .flashCommand targets => (s, handleFlashCommand targets s)
      | .clearCommand targets => (handleClearCommand targets s, [])
      | .ping => (s, sendPong rand now s)
      | _ => (s, [])
  | .clickFeedback t isReply => (s, sendFeedback rand now s t isReply)

/-- Run the caster over a list of events, collecting all outputs. -/
def casterRun (rand : Nat → Nat) (now : Nat) (s : CasterState) :
    List CasterEvent → CasterState × List CasterOutput
  | [] => (s, [])
  | ev :: evs =>
      let st := casterStep rand now s ev
      let rest := casterRun rand now st.1 evs
      (rest.1, st.2 ++ rest.2)

/-- The caster state right after `handleConnect` creates the socket:
nothing sent, nothing received, configuration fields filled in. -/
def initialCasterState (clientName : String)
    (selectedMonitorIds : List String) : CasterState :=
  { wsOpen := false
    connected := false
    clientName := clientName
    selectedMonitorIds := selectedMonitorIds
    availableMonitors := []
    currentMessage := none }

/-- The frames written to the socket, in order, among a list of outputs. -/
def sentFrames : List CasterOutput → List Envelope
  | [] => []
  | .sendFrame e :: rest => e :: sentFrames rest
  | .flash :: rest => sentFrames rest

/-! ## Stream Deck bridge client (BiKanpeClient) -/

/-- A request from the Stream Deck plugin to the caster's local API. -/
structure StreamDeckRequest where
  rtype : String
  content : Option String
  feedback_type : Option String
deriving DecidableEq, Repr

/-- The bridge's `BiKanpeClient.send`: reject synchronously with
`Not connected to server` when the socket is missing or not open,
otherwise serialize and hand the request to the socket. -/
def biKanpeClientSend (wsOpen : Bool) (req : StreamDeckRequest) :
    Except String StreamDeckRequest :=
  if !wsOpen then .error "Not connected to server" else .ok req

/-! ## Server-side pieces modelled from the specification -/

/-- Errors reported synchronously by the invoke surface. -/
inductive InvokeError
  | InvalidArgument
  | NotFound
  | NotConnected
deriving DecidableEq, Repr

/-- Modelled from the spec: the `send_kanpe_message` command of the Rust
server hub is not among the sources (only its TypeScript callers are).
Per the spec it rejects an empty `target_monitor_ids` with
`InvalidArgument` — broadcasting no envelope — and rewrites the target
list to exactly `["ALL"]` when the caller passes the sentinel. -/
def send_kanpe_message (mintedId : String) (now : Nat)
    (targets : List String) (content : String) (priority : Priority) :
    Except InvokeError Envelope :=
  if targets.isEmpty then .error .InvalidArgument
  else
    .ok { id := mintedId
          timestamp := now
          payload := .kanpeMessage
            { content := content
              target_monitor_ids :=
                if targets.contains "ALL" then ["ALL"] else targets
              priority := priority } }

/-- The `toggleMonitorId` helper of the director UI (ServerView):
selecting the sentinel replaces the whole selection with `["ALL"]`;
selecting a specific id drops the sentinel and toggles that id. -/
def toggleMonitorId (id : String) (prev : List String) : List String :=
  if id = "ALL" then ["ALL"]
  else
    let newIds := prev.filter (fun i => i ≠ "ALL")
    if newIds.contains id then newIds.filter (fun i => i ≠ id)
    else newIds ++ [id]

/-- A connected client as the server hub tracks it. -/
structure ConnectedClient where
  client_id : String
  name : String
  display_monitor_ids : List String
  outbox : List Envelope
deriving DecidableEq, Repr

/-- Modelled from the spec: the server hub's broadcast engine (Rust, not
among the sources) broadcasts directives unfiltered to every active
subscriber's outbox; per-monitor filtering is the subscriber's job. -/
def broadcastToAll (clients : List ConnectedClient) (e : Envelope) :
    List ConnectedClient :=
  clients.map (fun c => { c with outbox := c.outbox ++ [e] })

/-! ## Concrete sample values used by witnesses -/

/-- A kanpe envelope targeting monitor `A` with high priority. -/
def sampleKanpe : Envelope :=
  { id := "k1", timestamp := 100,
    payload := .kanpeMessage
      { content := "Smile", target_monitor_ids := ["A"], priority := .high } }

/-- A kanpe envelope targeting the sentinel with normal priority. -/
def sampleAll : Envelope :=
  { id := "k2", timestamp := 200,
    payload := .kanpeMessage
      { content := "Start", target_monitor_ids := ["ALL"],
        priority := .normal } }

/-- An urgent kanpe envelope targeting the sentinel. -/
def urgentKanpe : Envelope :=
  { id := "k3", timestamp := 300,
    payload := .kanpeMessage
      { content := "NOW", target_monitor_ids := ["ALL"],
        priority := .urgent } }

/-- The hook state before any event. -/
def emptyClientState : ClientState :=
  { isConnected := false, serverName := none, messages := [],
    availableMonitors := [], flashTrigger := 0, clearTrigger := 0 }

/-- A hook state holding one displayed message and non-zero triggers. -/
def loadedClientState : ClientState :=
  { emptyClientState with
    messages := [sampleKanpe]
    flashTrigger := 2
    clearTrigger := 3 }

/-- A web caster connected and displaying monitor `A`. -/
def sampleCaster : CasterState :=
  { wsOpen := true, connected := true, clientName := "Alice",
    selectedMonitorIds := ["A"], availableMonitors := [],
    currentMessage := none }

/-- A web caster whose socket is not open. -/
def closedCaster : CasterState := { sampleCaster with wsOpen := false }

/-- A feedback template, as in `DEFAULT_TEMPLATES`. -/
def sampleTemplate : FeedbackTemplate :=
  { content := "OK", feedback_type := .ack }

/-- Two registry monitors. -/
def monA : VirtualMonitor :=
  { id := "A", name := "Host", description := "", color := "" }

/-- Second registry monitor. -/
def monB : VirtualMonitor :=
  { id := "B", name := "Actor", description := "", color := "" }

/-- An updated rendition of monitor `A`. -/
def monA2 : VirtualMonitor :=
  { id := "A", name := "Host 2", description := "lead", color := "blue" }

/-- A hook state mirroring monitors `A` and `B`. -/
def monState : ClientState :=
  { emptyClientState with availableMonitors := [monA, monB] }

/-- A subscriber that displays no monitor. -/
def cEmpty : ConnectedClient :=
  { client_id := "c1", name := "Bridge", display_monitor_ids := [],
    outbox := [] }

/-- A ping envelope. -/
def pingEnvelope : Envelope :=
  { id := "p1", timestamp := 5, payload := .ping }

/-- A server welcome envelope. -/
def welcomeEnv : Envelope :=
  { id := "w1", timestamp := 1, payload := .serverWelcome "Director" "c1" }

/-- A Stream Deck request. -/
def sampleRequest : StreamDeckRequest :=
  { rtype := "send_feedback", content := some "OK",
    feedback_type := some "ack" }

/-- An event trace: socket opens, then a welcome arrives. -/
def c9Trace : List CasterEvent := [.socketOpen, .recv welcomeEnv]

/-- The hello frame minted on the all-zero random supply. -/
def helloC9 : Envelope :=
  { id := "00000000-0000-4000-8000-000000000000", timestamp := 0,
    payload := .clientHello "Alice" ["A"] }

/-- The feedback frame minted on the all-zero random supply when
replying to `sampleKanpe`. -/
def c5Frame : Envelope :=
  { id := "00000000-0000-4000-8000-000000000000", timestamp := 0,
    payload := .feedbackMessage
      { content := "OK", client_name := "Alice",
        reply_to_message_id := "k1", feedback_type := .ack } }


/-! ## Basic lemmas -/

lemma inter_ne_nil_iff (t d : List String) :
    t.inter d ≠ [] ↔ ∃ a, a ∈ t ∧ a ∈ d := by
  rw [Ne, List.eq_nil_iff_forall_not_mem]
  push_neg
  constructor
  · rintro ⟨a, ha⟩
    exact ⟨a, List.mem_inter_iff.mp ha⟩
  · rintro ⟨a, ha, hd⟩
    exact ⟨a, List.mem_inter_iff.mpr ⟨ha, hd⟩⟩

lemma shouldDisplay_iff (d t : List String) :
    shouldDisplay d t = true ↔ "ALL" ∈ t ∨ t.inter d ≠ [] := by
  rw [inter_ne_nil_iff]
  unfold shouldDisplay
  simp [List.any_eq_true]
  tauto

lemma generateUUIDAux_length (rand : Nat → Nat) :
    ∀ (cs : List Char) (k : Nat),
      (generateUUIDAux rand cs k).length = cs.length := by
  intro cs
  induction cs with
  | nil => intro k; rfl
  | cons c cs ih =>
      intro k
      unfold generateUUIDAux
      by_cases hx : c = 'x'
      · simp [hx, ih]
      · by_cases hy : c = 'y'
        · simp [hx, hy, ih]
        · simp [hx, hy, ih]

lemma generateUUID_length (rand : Nat → Nat) :
    (generateUUID rand).length = 36 := by
  show (generateUUIDAux rand uuidTemplate 0).length = 36
  rw [generateUUIDAux_length]
  rfl

lemma sentFrames_append (a b : List CasterOutput) :
    sentFrames (a ++ b) = sentFrames a ++ sentFrames b := by
  induction a with
  | nil => rfl
  | cons o rest ih =>
      cases o <;> simp [sentFrames, ih]

lemma casterStep_clientName (rand : Nat → Nat) (now : Nat)
    (s : CasterState) (ev : CasterEvent) :
    (casterStep rand now s ev).1.clientName = s.clientName := by
  cases ev with
  | socketOpen => rfl
  | socketClose => rfl
  | clickFeedback t b => rfl
  | recv e =>
      rcases e with ⟨eid, ets, pl⟩
      cases pl <;>
        simp only [casterStep, handleKanpeMessage, handleClearCommand] <;>
        first
        | rfl
        | (split <;> rfl)

lemma casterStep_selectedMonitorIds (rand : Nat → Nat) (now : Nat)
    (s : CasterState) (ev : CasterEvent) :
    (casterStep rand now s ev).1.selectedMonitorIds = s.selectedMonitorIds := by
  cases ev with
  | socketOpen => rfl
  | socketClose => rfl
  | clickFeedback t b => rfl
  | recv e =>
      rcases e with ⟨eid, ets, pl⟩
      cases pl <;>
        simp only [casterStep, handleKanpeMessage, handleClearCommand] <;>
        first
        | rfl
        | (split <;> rfl)

/-- Invariant tying the caster state to the frames sent so far: the
socket being open means at least one frame went out, and whatever frame
went out first was the `client_hello` carrying the configuration. -/
def helloFramesInv (name : String) (ids : List String)
    (s : CasterState) (log : List Envelope) : Prop :=
  (s.wsOpen = true → log ≠ []) ∧
  (∀ e, log.head? = some e → e.payload = .clientHello name ids)

lemma helloFramesInv_extend (name : String) (ids : List String)
    (s : CasterState) (log frames : List Envelope)
    (hlog : log ≠ []) (hinv : helloFramesInv name ids s log)
    (s' : CasterState) :
    helloFramesInv name ids s' (log ++ frames) := by
  rcases log with _ | ⟨a, as⟩
  · exact absurd rfl hlog
  · exact ⟨fun _ => by simp, fun e he => hinv.2 e (by simpa using he)⟩

lemma casterStep_helloInv (rand : Nat → Nat) (now : Nat)
    (name : String) (ids : List String) (s : CasterState)
    (log : List Envelope) (ev : CasterEvent)
    (hname : s.clientName = name) (hids : s.selectedMonitorIds = ids)
    (hinv : helloFramesInv name ids s log) :
    helloFramesInv name ids (casterStep rand now s ev).1
      (log ++ sentFrames (casterStep rand now s ev).2) := by
  cases ev with
  | socketOpen =>
      rcases log with _ | ⟨a, as⟩
      · refine ⟨fun _ => by simp [casterStep, sentFrames], ?_⟩
        intro e he
        simp only [casterStep, sentFrames, List.nil_append, List.head?] at he
        cases he
        simp [helloEnvelope, hname, hids]
      · refine ⟨fun _ => by simp, ?_⟩
        intro e he
        exact hinv.2 e (by simpa using he)
  | socketClose =>
      refine ⟨fun h => by simp [casterStep] at h, ?_⟩
      intro e he
      exact hinv.2 e (by simpa [casterStep, sentFrames] using he)
  | clickFeedback t b =>
      by_cases hop : s.wsOpen = true
      · exact helloFramesInv_extend name ids s log _ (hinv.1 hop) hinv _
      · have hframes :
            sentFrames (casterStep rand now s (.clickFeedback t b)).2 = [] := by
          simp [casterStep, sendFeedback, hop, sentFrames]
        rw [hframes, List.append_nil]
        refine ⟨fun h => hinv.1 (by simpa [casterStep] using h), hinv.2⟩
  | recv e =>
      have hop : (casterStep rand now s (.recv e)).1.wsOpen = s.wsOpen := by
        rcases e with ⟨eid, ets, pl⟩
        cases pl <;>
          simp only [casterStep, handleKanpeMessage, handleClearCommand] <;>
          first
          | rfl
          | (split <;> rfl)
      by_cases hws : s.wsOpen = true
      · exact helloFramesInv_extend name ids s log _ (hinv.1 hws) hinv _
      · have hframes :
            sentFrames (casterStep rand now s (.recv e)).2 = [] := by
          rcases e with ⟨eid, ets, pl⟩
          cases pl <;>
            simp [casterStep, handleKanpeMessage, handleFlashCommand,
              handleClearCommand, sendPong, sentFrames, hws,
              apply_ite Prod.snd, apply_ite sentFrames]
        rw [hframes, List.append_nil]
        refine ⟨fun h => hinv.1 (by rw [← hop]; exact h), hinv.2⟩

lemma casterRun_helloInv (rand : Nat → Nat) (now : Nat)
    (name : String) (ids : List String) :
    ∀ (trace : List CasterEvent) (s : CasterState) (log : List Envelope),
      s.clientName = name → s.selectedMonitorIds = ids →
      helloFramesInv name ids s log →
      helloFramesInv name ids (casterRun rand now s trace).1
        (log ++ sentFrames (casterRun rand now s trace).2) := by
  intro trace
  induction trace with
  | nil =>
      intro s log h1 h2 hinv
      simpa [casterRun, sentFrames] using hinv
  | cons ev evs ih =>
      intro s log h1 h2 hinv
      have hstep := casterStep_helloInv rand now name ids s log ev h1 h2 hinv
      have hname' : (casterStep rand now s ev).1.clientName = name := by
        rw [casterStep_clientName]; exact h1
      have hids' :
          (casterStep rand now s ev).1.selectedMonitorIds = ids := by
        rw [casterStep_selectedMonitorIds]; exact h2
      have := ih (casterStep rand now s ev).1
        (log ++ sentFrames (casterStep rand now s ev).2) hname' hids' hstep
      simpa [casterRun, sentFrames_append, List.append_assoc] using this

/-- Invariant: the caster's current message, when set, is a kanpe
envelope received earlier in the trace that passed the display filter. -/
def currentFromTrace (trace : List CasterEvent) (s : CasterState) : Prop :=
  ∀ m, s.currentMessage = some m →
    ∃ p, m.payload = .kanpeMessage p ∧
      shouldDisplay s.selectedMonitorIds p.target_monitor_ids = true ∧
      CasterEvent.recv m ∈ trace

lemma casterStep_currentFromTrace (rand : Nat → Nat) (now : Nat)
    (trace : List CasterEvent) (s : CasterState) (ev : CasterEvent)
    (hinv : currentFromTrace trace s) :
    currentFromTrace (trace ++ [ev]) (casterStep rand now s ev).1 := by
  have hsel := casterStep_selectedMonitorIds rand now s ev
  intro m hm
  rw [hsel]
  cases ev with
  | socketOpen =>
      obtain ⟨p, h1, h2, h3⟩ := hinv m (by simpa [casterStep] using hm)
      exact ⟨p, h1, h2, List.mem_append_left _ h3⟩
  | socketClose =>
      obtain ⟨p, h1, h2, h3⟩ := hinv m (by simpa [casterStep] using hm)
      exact ⟨p, h1, h2, List.mem_append_left _ h3⟩
  | clickFeedback t b =>
      obtain ⟨p, h1, h2, h3⟩ := hinv m (by simpa [casterStep] using hm)
      exact ⟨p, h1, h2, List.mem_append_left _ h3⟩
  | recv e =>
      rcases e with ⟨eid, ets, pl⟩
      cases pl
      case kanpeMessage p =>
          by_cases hd :
              shouldDisplay s.selectedMonitorIds p.target_monitor_ids = true
          · simp [casterStep, handleKanpeMessage, hd] at hm
            subst hm
            exact ⟨p, rfl, hd, List.mem_append_right _ (by simp)⟩
          · simp [casterStep, handleKanpeMessage, hd] at hm
            obtain ⟨q, h1, h2, h3⟩ := hinv m hm
            exact ⟨q, h1, h2, List.mem_append_left _ h3⟩
      case clearCommand ts =>
          by_cases hd : shouldDisplay s.selectedMonitorIds ts = true
          · simp [casterStep, handleClearCommand, hd] at hm
          · simp [casterStep, handleClearCommand, hd] at hm
            obtain ⟨q, h1, h2, h3⟩ := hinv m hm
            exact ⟨q, h1, h2, List.mem_append_left _ h3⟩
      all_goals
        obtain ⟨q, h1, h2, h3⟩ := hinv m (by simpa [casterStep] using hm)
      all_goals
        exact ⟨q, h1, h2, List.mem_append_left _ h3⟩

lemma casterRun_currentFromTrace (rand : Nat → Nat) (now : Nat) :
    ∀ (trace : List CasterEvent) (pre : List CasterEvent) (s : CasterState),
      currentFromTrace pre s →
      currentFromTrace (pre ++ trace) (casterRun rand now s trace).1 := by
  intro trace
  induction trace with
  | nil =>
      intro pre s hinv
      simpa [casterRun] using hinv
  | cons ev evs ih =>
      intro pre s hinv
      have hstep := casterStep_currentFromTrace rand now pre s ev hinv
      have := ih (pre ++ [ev]) (casterStep rand now s ev).1 hstep
      simpa [casterRun, List.append_assoc] using this

/-- The caster is only set to `connected` by a `server_welcome`. -/
lemma casterStep_connected (rand : Nat → Nat) (now : Nat)
    (s : CasterState) (ev : CasterEvent)
    (h : (casterStep rand now s ev).1.connected = true) :
    s.connected = true ∨
      ∃ env sn cid, ev = CasterEvent.recv env ∧
        env.payload = .serverWelcome sn cid := by
  cases ev with
  | socketOpen => exact Or.inl (by simpa [casterStep] using h)
  | socketClose => simp [casterStep] at h
  | clickFeedback t b => exact Or.inl (by simpa [casterStep] using h)
  | recv e =>
      rcases e with ⟨eid, ets, pl⟩
      cases pl
      case serverWelcome sn cid =>
        exact Or.inr ⟨⟨eid, ets, .serverWelcome sn cid⟩, sn, cid, rfl, rfl⟩
      all_goals
        refine Or.inl ?_
      all_goals
        revert h
      all_goals
        simp only [casterStep, handleKanpeMessage, handleClearCommand]
      all_goals
        first
        | (intro h; exact h)
        | (split <;> intro h <;> exact h)

lemma casterRun_connected (rand : Nat → Nat) (now : Nat) :
    ∀ (trace : List CasterEvent) (s : CasterState),
      (casterRun rand now s trace).1.connected = true →
      s.connected = true ∨
        ∃ env sn cid, CasterEvent.recv env ∈ trace ∧
          env.payload = .serverWelcome sn cid := by
  intro trace
  induction trace with
  | nil =>
      intro s h
      exact Or.inl (by simpa [casterRun] using h)
  | cons ev evs ih =>
      intro s h
      have h' := ih (casterStep rand now s ev).1 (by simpa [casterRun] using h)
      rcases h' with hc | ⟨env, sn, cid, hmem, hpl⟩
      · rcases casterStep_connected rand now s ev hc with
          hc0 | ⟨env, sn, cid, hev, hpl⟩
        · exact Or.inl hc0
        · exact Or.inr ⟨env, sn, cid, hev ▸ List.mem_cons_self _ _, hpl⟩
      · exact Or.inr ⟨env, sn, cid, List.mem_cons_of_mem _ hmem, hpl⟩

/-! ## Claim theorems -/

/-- Claim C1: a received `kanpe_message` is rendered (stored for
display) iff its `target_monitor_ids` contains the sentinel `"ALL"` or
has a non-empty intersection with the caster's display monitor set;
messages that fail the filter leave the state unchanged, both in the
hook listener and in the web caster. -/
theorem kanpe_display_filter (d : List String) (e : Envelope)
    (p : KanpePayload) (s : ClientState) (cs : CasterState)
    (h : e.payload = .kanpeMessage p) :
    ((handleKanpeMessageEvent d e s).messages = s.messages ++ [e] ↔
      "ALL" ∈ p.target_monitor_ids ∨ p.target_monitor_ids.inter d ≠ []) ∧
    (shouldDisplay d p.target_monitor_ids = false →
      handleKanpeMessageEvent d e s = s) ∧
    (shouldDisplay cs.selectedMonitorIds p.target_monitor_ids = true →
      (handleKanpeMessage e p cs).1.currentMessage = some e) ∧
    (shouldDisplay cs.selectedMonitorIds p.target_monitor_ids = false →
      handleKanpeMessage e p cs = (cs, [])) := by
  refine ⟨?_, ?_, ?_, ?_⟩
  · rw [← shouldDisplay_iff]
    by_cases hd : shouldDisplay d p.target_monitor_ids = true
    · simp [handleKanpeMessageEvent, h, hd]
    · simp [handleKanpeMessageEvent, h, hd]
  · intro hd
    simp [handleKanpeMessageEvent, h, hd]
  · intro hd
    simp [handleKanpeMessage, hd]
  · intro hd
    simp [handleKanpeMessage, hd]

/-- Claim C1 witness: a kanpe targeting `A` is stored by a caster
displaying `A`. -/
theorem kanpe_display_filter_witness :
    (handleKanpeMessageEvent ["A"] sampleKanpe emptyClientState).messages =
      emptyClientState.messages ++ [sampleKanpe] :=
  (kanpe_display_filter ["A"] sampleKanpe
    { content := "Smile", target_monitor_ids := ["A"], priority := .high }
    emptyClientState sampleCaster rfl).1.mpr (by decide)

/-- Claim C2: `flash_command` and `clear_command` use the same display
filter as `kanpe_message`; a passing clear empties the current-message
state and bumps the clear trigger, a passing flash raises the transient
signal, and commands failing the filter leave everything unchanged,
both in the hook listeners and the web caster. -/
theorem flash_clear_filter (d t : List String) (s : ClientState)
    (cs : CasterState) :
    (shouldDisplay d t = true ↔ "ALL" ∈ t ∨ t.inter d ≠ []) ∧
    (shouldDisplay d t = true →
      (handleClearEvent d t s).messages = [] ∧
      (handleClearEvent d t s).clearTrigger = s.clearTrigger + 1 ∧
      (handleFlashEvent d t s).flashTrigger = s.flashTrigger + 1) ∧
    (shouldDisplay d t = false →
      handleClearEvent d t s = s ∧ handleFlashEvent d t s = s) ∧
    (shouldDisplay cs.selectedMonitorIds t = true →
      (handleClearCommand t cs).currentMessage = none ∧
      handleFlashCommand t cs = [.flash]) ∧
    (shouldDisplay cs.selectedMonitorIds t = false →
      handleClearCommand t cs = cs ∧ handleFlashCommand t cs = []) := by
  refine ⟨shouldDisplay_iff d t, ?_, ?_, ?_, ?_⟩ <;> intro hd <;>
    simp [handleClearEvent, handleFlashEvent, handleClearCommand,
      handleFlashCommand, hd]

/-- Claim C2 witness: a sentinel-targeted clear empties the stored
messages and a sentinel-targeted flash raises the signal. -/
theorem flash_clear_filter_witness :
    (handleClearEvent ["A"] ["ALL"] loadedClientState).messages = [] ∧
    handleFlashCommand ["ALL"] sampleCaster = [.flash] := by
  have h := flash_clear_filter ["A"] ["ALL"] loadedClientState sampleCaster
  exact ⟨(h.2.1 (by decide)).1, (h.2.2.2.1 (by decide)).2⟩

/-- Claim C3: `monitor_list_sync` replaces the mirror wholesale,
`monitor_added` appends exactly the carried monitor, `monitor_removed`
keeps exactly (and in order) the entries whose id differs from the
carried id, and `monitor_updated` replaces pointwise exactly the
entries whose id matches. -/
theorem monitor_mirror_ops (s : ClientState) (ms : List VirtualMonitor)
    (m : VirtualMonitor) (mid : String) :
    (handleMonitorListEvent ms s).availableMonitors = ms ∧
    (handleMonitorAddedEvent m s).availableMonitors =
      s.availableMonitors ++ [m] ∧
    (∀ x, x ∈ (handleMonitorRemovedEvent mid s).availableMonitors ↔
      x ∈ s.availableMonitors ∧ x.id ≠ mid) ∧
    List.Sublist (handleMonitorRemovedEvent mid s).availableMonitors
      s.availableMonitors ∧
    (handleMonitorUpdatedEvent m s).availableMonitors.length =
      s.availableMonitors.length ∧
    (∀ i (hi : i < s.availableMonitors.length),
      (handleMonitorUpdatedEvent m s).availableMonitors[i]? =
        some (if (s.availableMonitors[i]).id = m.id then m
              else s.availableMonitors[i])) := by
  refine ⟨rfl, rfl, ?_, ?_, ?_, ?_⟩
  · intro x
    simp [handleMonitorRemovedEvent, List.mem_filter]
  · exact List.filter_sublist _
  · simp [handleMonitorUpdatedEvent]
  · intro i hi
    simp [handleMonitorUpdatedEvent, List.getElem?_eq_getElem, hi]

/-- Claim C3 witness: updating monitor `A` rewrites only the first
entry of the mirror `[A, B]`, and removing `A` keeps `B`. -/
theorem monitor_mirror_ops_witness :
    (handleMonitorUpdatedEvent monA2 monState).availableMonitors[0]? =
      some monA2 ∧
    monB ∈ (handleMonitorRemovedEvent "A" monState).availableMonitors := by
  have h := monitor_mirror_ops monState [monA] monA2 "A"
  constructor
  · have h0 := h.2.2.2.2.2 0 (by decide)
    simpa using h0
  · exact (h.2.2.1 monB).mpr (by decide)

/-- Claim C4: `send_kanpe_message` with an empty target list fails with
`InvalidArgument` and broadcasts no envelope; a target list containing
the sentinel is rewritten to exactly `["ALL"]`, and the director UI's
`toggleMonitorId` turns a sentinel selection into exactly `["ALL"]`. -/
theorem send_kanpe_empty_and_sentinel (mid : String) (now : Nat)
    (content : String) (prio : Priority) (targets prev : List String) :
    send_kanpe_message mid now [] content prio =
      .error .InvalidArgument ∧
    ("ALL" ∈ targets →
      send_kanpe_message mid now targets content prio =
        .ok { id := mid, timestamp := now,
              payload := .kanpeMessage
                { content := content, target_monitor_ids := ["ALL"],
                  priority := prio } }) ∧
    toggleMonitorId "ALL" prev = ["ALL"] := by
  refine ⟨rfl, ?_, by simp [toggleMonitorId]⟩
  intro hall
  have hne : targets.isEmpty = false := by
    cases targets with
    | nil => simp at hall
    | cons a as => rfl
  have hc : targets.contains "ALL" = true := by simpa using hall
  simp [send_kanpe_message, hne, hc]
  intro hn
  exact absurd hall hn

/-- Claim C4 witness: the empty list is refused, a sentinel-containing
list is rewritten, and toggling the sentinel clears other selections. -/
theorem send_kanpe_empty_and_sentinel_witness :
    send_kanpe_message "m1" 0 [] "Hi" .normal =
      .error .InvalidArgument ∧
    send_kanpe_message "m1" 0 ["B", "ALL"] "Hi" .normal =
      .ok { id := "m1", timestamp := 0,
            payload := .kanpeMessage
              { content := "Hi", target_monitor_ids := ["ALL"],
                priority := .normal } } ∧
    toggleMonitorId "ALL" ["A", "B"] = ["ALL"] := by
  have h := send_kanpe_empty_and_sentinel "m1" 0 "Hi" .normal
    ["B", "ALL"] ["A", "B"]
  exact ⟨h.1, h.2.1 (by decide), h.2.2⟩

/-- Claim C5: every feedback frame the caster emits carries
`reply_to_message_id` equal to the empty string when standalone, and
equal to the id of a previously received kanpe envelope (the current
displayed message) when it is a reply. -/
theorem feedback_reply_id (rand : Nat → Nat) (now : Nat) (name : String)
    (ids : List String) (trace : List CasterEvent) (t : FeedbackTemplate)
    (b : Bool) :
    ∀ e ∈ sentFrames (casterStep rand now
        (casterRun rand now (initialCasterState name ids) trace).1
        (.clickFeedback t b)).2,
      ∃ fp, e.payload = .feedbackMessage fp ∧
        (b = false → fp.reply_to_message_id = "") ∧
        (fp.reply_to_message_id = "" ∨
          ∃ m p,
            (casterRun rand now (initialCasterState name ids)
              trace).1.currentMessage = some m ∧
            fp.reply_to_message_id = m.id ∧
            m.payload = .kanpeMessage p ∧
            CasterEvent.recv m ∈ trace) := by
  intro e he
  have hinv := casterRun_currentFromTrace rand now trace []
    (initialCasterState name ids)
    (fun m hm => by simp [initialCasterState] at hm)
  generalize hfin :
    (casterRun rand now (initialCasterState name ids) trace).1 = s at *
  by_cases hop : s.wsOpen = true
  · have he' : e ∈ sentFrames (sendFeedback rand now s t b) := he
    rw [sendFeedback, if_pos hop] at he'
    simp only [sentFrames, List.mem_singleton] at he'
    subst he'
    refine ⟨_, rfl, ?_, ?_⟩
    · intro hb
      subst hb
      rfl
    · cases b with
      | false => exact Or.inl rfl
      | true =>
          cases hcur : s.currentMessage with
          | none => exact Or.inl rfl
          | some m =>
              obtain ⟨p, hp1, hp2, hp3⟩ := hinv m hcur
              exact Or.inr ⟨m, p, rfl, rfl, hp1, by simpa using hp3⟩
  · have he' : e ∈ sentFrames (sendFeedback rand now s t b) := he
    rw [sendFeedback, if_neg hop] at he'
    simp [sentFrames] at he'

/-- Claim C5 witness: after receiving `sampleKanpe`, a reply template
click emits a feedback frame whose `reply_to_message_id` is the id of
that kanpe. -/
theorem feedback_reply_id_witness :
    ∃ fp, c5Frame.payload = Payload.feedbackMessage fp ∧
      fp.reply_to_message_id = "k1" := by
  obtain ⟨fp, h1, -, -⟩ := feedback_reply_id (fun _ => 0) 0 "Alice" ["A"]
    [.socketOpen, .recv sampleKanpe] sampleTemplate true c5Frame
    (by decide)
  refine ⟨fp, h1, ?_⟩
  have h1' : Payload.feedbackMessage
      { content := "OK", client_name := "Alice",
        reply_to_message_id := "k1", feedback_type := .ack } =
      Payload.feedbackMessage fp := h1
  cases h1'
  rfl

/-- Claim C6: a feedback send while the session is not connected is
refused synchronously — the bridge client rejects with its
not-connected error, the web caster sends no frame and changes no
state — and a frame only ever goes out while connected. -/
theorem send_feedback_not_connected (req : StreamDeckRequest)
    (wsOpen : Bool) (r : StreamDeckRequest) (rand : Nat → Nat)
    (now : Nat) (s : CasterState) (t : FeedbackTemplate) (b : Bool) :
    biKanpeClientSend false req = .error "Not connected to server" ∧
    (biKanpeClientSend wsOpen req = .ok r → wsOpen = true) ∧
    (s.wsOpen = false →
      casterStep rand now s (.clickFeedback t b) = (s, [])) := by
  refine ⟨rfl, ?_, ?_⟩
  · intro h
    cases wsOpen
    · simp [biKanpeClientSend] at h
    · rfl
  · intro hws
    simp [casterStep, sendFeedback, hws]

/-- Claim C6 witness: the closed-socket bridge send is rejected and the
closed-socket caster click is a no-op. -/
theorem send_feedback_not_connected_witness :
    biKanpeClientSend false sampleRequest =
      .error "Not connected to server" ∧
    casterStep (fun _ => 0) 0 closedCaster
      (.clickFeedback sampleTemplate false) = (closedCaster, []) := by
  have h := send_feedback_not_connected sampleRequest false sampleRequest
    (fun _ => 0) 0 closedCaster sampleTemplate false
  exact ⟨h.1, h.2.2 rfl⟩

/-- Claim C7 counterexample: the web caster answers the ping `p1` with
a pong whose id is a freshly minted UUID, not `"p1"`: the claim that
the pong carries the ping's id fails at this input. -/
theorem pong_same_id_counterexample :
    sentFrames (casterStep (fun _ => 0) 7 sampleCaster
        (.recv pingEnvelope)).2 =
      [{ id := "00000000-0000-4000-8000-000000000000", timestamp := 7,
         payload := .pong }] ∧
    ¬ ("00000000-0000-4000-8000-000000000000" = pingEnvelope.id) := by
  constructor
  · decide
  · decide

/-- Claim C7 (amended): an inbound `ping` on an open socket is answered
with exactly one `pong`, whose id is freshly minted by the UUID
generator (a 36-character string) rather than copied from the ping;
the caster state is unchanged. -/
theorem pong_fresh_id (rand : Nat → Nat) (now : Nat) (s : CasterState)
    (e : Envelope) (hws : s.wsOpen = true) (hp : e.payload = .ping) :
    (casterStep rand now s (.recv e)).2 =
      [.sendFrame { id := generateUUID rand, timestamp := now,
                    payload := .pong }] ∧
    (casterStep rand now s (.recv e)).1 = s ∧
    (generateUUID rand).length = 36 := by
  rcases e with ⟨eid, ets, pl⟩
  cases hp
  exact ⟨by simp [casterStep, sendPong, hws], rfl, generateUUID_length rand⟩

/-- Claim C7 (amended) witness: a concrete ping on the open caster. -/
theorem pong_fresh_id_witness :
    (casterStep (fun _ => 1) 9 sampleCaster (.recv pingEnvelope)).2 =
      [.sendFrame { id := generateUUID (fun _ => 1), timestamp := 9,
                    payload := .pong }] ∧
    (casterStep (fun _ => 1) 9 sampleCaster (.recv pingEnvelope)).1 =
      sampleCaster ∧
    (generateUUID (fun _ => 1)).length = 36 :=
  pong_fresh_id (fun _ => 1) 9 sampleCaster pingEnvelope rfl rfl

/-- Claim C8: broadcast delivers every envelope to every subscriber's
outbox regardless of its display set; a caster with an empty display
set renders nothing unless the sentinel is targeted, in which case it
renders. -/
theorem empty_display_receives_renders_none
    (clients : List ConnectedClient) (env : Envelope)
    (c : ConnectedClient) (t : List String) (e : Envelope)
    (p : KanpePayload) (s : ClientState) :
    (c ∈ clients →
      { c with outbox := c.outbox ++ [env] } ∈ broadcastToAll clients env) ∧
    shouldDisplay [] t = t.contains "ALL" ∧
    (e.payload = .kanpeMessage p → "ALL" ∉ p.target_monitor_ids →
      handleKanpeMessageEvent [] e s = s) ∧
    (e.payload = .kanpeMessage p → "ALL" ∈ p.target_monitor_ids →
      (handleKanpeMessageEvent [] e s).messages = s.messages ++ [e]) := by
  refine ⟨?_, ?_, ?_, ?_⟩
  · intro hc
    exact List.mem_map.mpr ⟨c, hc, rfl⟩
  · simp [shouldDisplay]
  · intro hp hall
    have hd : shouldDisplay [] p.target_monitor_ids = false := by
      simp [shouldDisplay, hall]
    simp [handleKanpeMessageEvent, hp, hd]
  · intro hp hall
    have hd : shouldDisplay [] p.target_monitor_ids = true := by
      simp [shouldDisplay, hall]
    simp [handleKanpeMessageEvent, hp, hd]

/-- Claim C8 witness: the empty-display subscriber still receives the
frame; an `A`-targeted kanpe is not rendered, a sentinel-targeted one
is. -/
theorem empty_display_receives_renders_none_witness :
    { cEmpty with outbox := cEmpty.outbox ++ [sampleKanpe] } ∈
      broadcastToAll [cEmpty] sampleKanpe ∧
    handleKanpeMessageEvent [] sampleKanpe emptyClientState =
      emptyClientState ∧
    (handleKanpeMessageEvent [] sampleAll emptyClientState).messages =
      emptyClientState.messages ++ [sampleAll] := by
  have h1 := empty_display_receives_renders_none [cEmpty] sampleKanpe
    cEmpty [] sampleKanpe
    { content := "Smile", target_monitor_ids := ["A"], priority := .high }
    emptyClientState
  have h2 := empty_display_receives_renders_none [cEmpty] sampleKanpe
    cEmpty [] sampleAll
    { content := "Start", target_monitor_ids := ["ALL"],
      priority := .normal }
    emptyClientState
  exact ⟨h1.1 (by decide), h1.2.2.1 rfl (by decide),
    h2.2.2.2 rfl (by decide)⟩

/-- Claim C9: starting from the freshly configured caster, the first
frame ever sent is a `client_hello` carrying the configured client name
and display monitor ids, and the caster is connected only if a
`server_welcome` was received in the trace. -/
theorem hello_first_and_welcome (rand : Nat → Nat) (now : Nat)
    (name : String) (ids : List String) (trace : List CasterEvent) :
    (∀ e rest,
      sentFrames (casterRun rand now (initialCasterState name ids)
          trace).2 = e :: rest →
      e.payload = .clientHello name ids) ∧
    ((casterRun rand now (initialCasterState name ids)
        trace).1.connected = true →
      ∃ env sn cid, CasterEvent.recv env ∈ trace ∧
        env.payload = .serverWelcome sn cid) := by
  constructor
  · intro e rest hframes
    have hinv := casterRun_helloInv rand now name ids trace
      (initialCasterState name ids) [] rfl rfl
      ⟨fun h => by simp [initialCasterState] at h,
       fun e he => by simp at he⟩
    exact hinv.2 e (by simp [hframes])
  · intro hconn
    rcases casterRun_connected rand now trace
        (initialCasterState name ids) hconn with hc | hw
    · simp [initialCasterState] at hc
    · exact hw

/-- Claim C9 witness: on the trace "socket opens, welcome arrives" the
first frame is the hello and the welcome is found in the trace. -/
theorem hello_first_and_welcome_witness :
    helloC9.payload = Payload.clientHello "Alice" ["A"] ∧
    (∃ env sn cid, CasterEvent.recv env ∈ c9Trace ∧
      env.payload = Payload.serverWelcome sn cid) := by
  have h := hello_first_and_welcome (fun _ => 0) 0 "Alice" ["A"] c9Trace
  exact ⟨h.1 helloC9 [] (by decide), h.2 (by decide)⟩

/-- Claim C10: a kanpe passing the filter with urgent priority raises
the flash signal (trigger bump in the hook, flash output in the web
caster); normal or high priority kanpe never do. -/
theorem urgent_triggers_flash (d : List String) (e : Envelope)
    (p : KanpePayload) (s : ClientState) (cs : CasterState)
    (h : e.payload = .kanpeMessage p) :
    (shouldDisplay d p.target_monitor_ids = true →
      p.priority = .urgent →
      (handleKanpeMessageEvent d e s).flashTrigger = s.flashTrigger + 1) ∧
    (p.priority = .normal ∨ p.priority = .high →
      (handleKanpeMessageEvent d e s).flashTrigger = s.flashTrigger) ∧
    (shouldDisplay cs.selectedMonitorIds p.target_monitor_ids = true →
      p.priority = .urgent → (handleKanpeMessage e p cs).2 = [.flash]) ∧
    (p.priority = .normal ∨ p.priority = .high →
      (handleKanpeMessage e p cs).2 = []) := by
  refine ⟨?_, ?_, ?_, ?_⟩
  · intro hd hu
    simp [handleKanpeMessageEvent, h, hd, hu]
  · intro hp
    have hpu : p.priority ≠ .urgent := by
      rcases hp with hp | hp <;> simp [hp]
    by_cases hd : shouldDisplay d p.target_monitor_ids = true
    · simp [handleKanpeMessageEvent, h, hd, hpu]
    · simp [handleKanpeMessageEvent, h, hd]
  · intro hd hu
    simp [handleKanpeMessage, hd, hu]
  · intro hp
    have hpu : p.priority ≠ .urgent := by
      rcases hp with hp | hp <;> simp [hp]
    by_cases hd :
        shouldDisplay cs.selectedMonitorIds p.target_monitor_ids = true
    · simp [handleKanpeMessage, hd, hpu]
    · simp [handleKanpeMessage, hd]

/-- Claim C10 witness: the urgent sentinel kanpe bumps the trigger and
flashes; the high-priority kanpe leaves the trigger alone. -/
theorem urgent_triggers_flash_witness :
    (handleKanpeMessageEvent ["A"] urgentKanpe emptyClientState).flashTrigger =
      emptyClientState.flashTrigger + 1 ∧
    (handleKanpeMessage urgentKanpe
      { content := "NOW", target_monitor_ids := ["ALL"],
        priority := .urgent } sampleCaster).2 = [.flash] ∧
    (handleKanpeMessageEvent ["A"] sampleKanpe emptyClientState).flashTrigger =
      emptyClientState.flashTrigger := by
  have h1 := urgent_triggers_flash ["A"] urgentKanpe
    { content := "NOW", target_monitor_ids := ["ALL"],
      priority := .urgent }
    emptyClientState sampleCaster rfl
  have h2 := urgent_triggers_flash ["A"] sampleKanpe
    { content := "Smile", target_monitor_ids := ["A"], priority := .high }
    emptyClientState sampleCaster rfl
  exact ⟨h1.1 (by decide) rfl, h1.2.2.1 (by decide) rfl,
    h2.2.1 (Or.inr rfl)⟩

end BiKanpe
